import Mathlib

/-!
Verification of `CongestionFinder.py` (interdomain-congestion report generator).

The development shallowly embeds the program:
* datetimes are `Int` seconds since 0000-03-01 (proleptic Gregorian), with
  `timedelta(days = n)` as `n * 86400` seconds;
* parsed JSON values are the inductive `JVal`; Python subscripting, iteration
  and `str()` are modelled by `jget`, `pyIter` and `pyStr`;
* the remote HTTP services are an oracle `String → Except Nat JVal`
  (URL to either an HTTP error code, on which `get_result` exits the
  process, or a JSON body);
* `xlwt` sheets are lists of data rows plus the fixed header row, and the
  filesystem is an association list from filename to the workbook snapshot
  last written by `wb.save`;
* `sys.exit` / uncaught Python exceptions are the error component threaded
  through every step (`RunError`): once set, nothing further runs.
-/

namespace CF

/-! ## Calendar arithmetic (proleptic Gregorian, as Python `datetime`) -/

def isLeap (y : Nat) : Bool := y % 4 == 0 && (y % 100 != 0 || y % 400 == 0)

def daysInMonth (y m : Nat) : Nat :=
  if m = 2 then (if isLeap y then 29 else 28)
  else if m = 4 || m = 6 || m = 9 || m = 11 then 30 else 31

/-- Days since 0000-03-01 of a civil date. -/
def toOrdinal (y m d : Nat) : Nat :=
  let ys : Nat := if m ≤ 2 then y - 1 else y
  let mp : Nat := (m + 9) % 12
  let doy : Nat := (153 * mp + 2) / 5 + (d - 1)
  365 * ys + ys / 4 - ys / 100 + ys / 400 + doy

/-- Civil date (y, m, d) of a day count since 0000-03-01. -/
def civilFromDays (n : Nat) : Nat × Nat × Nat :=
  let era := n / 146097
  let doe := n % 146097
  let yoe := (doe - doe / 1460 + doe / 36524 - doe / 146096) / 365
  let doy := doe - (365 * yoe + yoe / 4 - yoe / 100)
  let mp := (5 * doy + 2) / 153
  let d := doy - (153 * mp + 2) / 5 + 1
  let m := if mp < 10 then mp + 3 else mp - 9
  let y := yoe + era * 400 + (if m ≤ 2 then 1 else 0)
  (y, m, d)

def pad2 (n : Nat) : String := if n < 10 then "0" ++ toString n else toString n

def pad4 (n : Nat) : String :=
  if n < 10 then "000" ++ toString n
  else if n < 100 then "00" ++ toString n
  else if n < 1000 then "0" ++ toString n
  else toString n

/-- The rendering `strftime("%Y") + strftime("%m") + strftime("%d")` of a civil day number. -/
def fmtCompact (n : Nat) : String :=
  let c := civilFromDays n
  pad4 c.1 ++ pad2 c.2.1 ++ pad2 c.2.2

/-- A datetime is `Int` seconds since 0000-03-01T00:00:00. -/
def secondsPerDay : Int := 86400

/-- A `datetime.timedelta(days = n)`, in seconds. -/
def timedeltaDays (n : Nat) : Int := (n : Int) * secondsPerDay

/-- Civil day number of a datetime (its calendar date). -/
def dateOf (t : Int) : Nat := (Int.fdiv t secondsPerDay).toNat

/-- The compact `%Y%m%d` rendering of a datetime's date. -/
def strfCompact (t : Int) : String := fmtCompact (dateOf t)

/-- Parsing `datetime.datetime.strptime(s, "%Y-%m-%d")`, returning the civil day
number of the parsed date, `none` on the `ValueError` raise. -/
def strptimeYmd (s : String) : Option Nat :=
  match s.toList with
  | [y1, y2, y3, y4, s1, m1, m2, s2, d1, d2] =>
    if y1.isDigit && y2.isDigit && y3.isDigit && y4.isDigit && s1 == '-' &&
       m1.isDigit && m2.isDigit && s2 == '-' && d1.isDigit && d2.isDigit then
      let y := 1000 * (y1.toNat - 48) + 100 * (y2.toNat - 48) + 10 * (y3.toNat - 48) + (y4.toNat - 48)
      let m := 10 * (m1.toNat - 48) + (m2.toNat - 48)
      let d := 10 * (d1.toNat - 48) + (d2.toNat - 48)
      if 1 ≤ y && 1 ≤ m && m ≤ 12 && 1 ≤ d && d ≤ daysInMonth y m then
        some (toOrdinal y m d)
      else none
    else none
  | _ => none

/-! ## Parsed JSON values and the Python operations used on them -/

inductive JVal where
  | jstr : String → JVal
  | jnum : Int → JVal
  | jarr : List JVal → JVal
  | jobj : List (String × JVal) → JVal

/-- The errors on which the program dies: `sys.exit` inside `get_result`
on an `HTTPError`, or an uncaught Python exception. -/
inductive RunError where
  | httpError : Nat → RunError
  | keyError : RunError
  | typeError : RunError
  | valueError : RunError
  deriving DecidableEq, Repr

def jlookup (k : String) : List (String × JVal) → Option JVal
  | [] => none
  | kv :: kvs => if kv.1 = k then some kv.2 else jlookup k kvs

/-- Python subscripting `j[k]` with a string key: `KeyError` when the key is
absent from a dict, `TypeError` when `j` is not a dict. -/
def jget (j : JVal) (k : String) : Except RunError JVal :=
  match j with
  | .jobj kvs =>
    match jlookup k kvs with
    | some v => .ok v
    | none => .error .keyError
  | _ => .error .typeError

/-- Python iteration `for x in j`: a list yields its elements, a dict its
keys (as strings), a string its characters; a number raises `TypeError`. -/
def pyIter (j : JVal) : Except RunError (List JVal) :=
  match j with
  | .jarr l => .ok l
  | .jobj kvs => .ok (kvs.map fun kv => .jstr kv.1)
  | .jstr s => .ok (s.toList.map fun c => .jstr c.toString)
  | .jnum _ => .error .typeError

/-- Python `j != []`: everything but the empty list is unequal to `[]`. -/
def isEmptyList (j : JVal) : Bool :=
  match j with
  | .jarr [] => true
  | _ => false

mutual
/-- Python `repr` of a JSON value. -/
def pyRepr : JVal → String
  | .jstr s => "\x27" ++ s ++ "\x27"
  | .jnum n => toString n
  | .jarr l => "[" ++ pyReprL l ++ "]"
  | .jobj l => "\x7b" ++ pyReprO l ++ "\x7d"

def pyReprL : List JVal → String
  | [] => ""
  | [x] => pyRepr x
  | x :: xs => pyRepr x ++ ", " ++ pyReprL xs

def pyReprO : List (String × JVal) → String
  | [] => ""
  | [kv] => "\x27" ++ kv.1 ++ "\x27: " ++ pyRepr kv.2
  | kv :: kvs => "\x27" ++ kv.1 ++ "\x27: " ++ pyRepr kv.2 ++ ", " ++ pyReprO kvs
end

/-- Python `str`. -/
def pyStr (j : JVal) : String :=
  match j with
  | .jstr s => s
  | j => pyRepr j

/-! ## URLs and `get_result` -/

/-- The remote services: a URL is answered by an HTTP error code
(`get_result` then exits the process) or a JSON body. -/
abbrev Oracle : Type := String → Except Nat JVal

def BASE_URL : String := "https://api.manic.caida.org/v1/asrt"

def VIS_BASE : String :=
  "https://viz.manic.caida.org/d/cmCi50Umz/all-links-from-vp-network-to-neighbor-network?orgId=2"

/-- The URL `"https://api.manic.caida.org/v1/asns/" + asn + "?verbose=true"` of the naming lookup. -/
def monitorUrl (asn : String) : String :=
  "https://api.manic.caida.org/v1/asns/" ++ asn ++ "?verbose=true"

/-- One window's `/asrt` query URL, from `save_congestion`'s loop body. -/
def queryUrl (near_asn far_asn : String) (t0 t1 : Int) : String :=
  BASE_URL ++ "?near_org_asn=" ++ near_asn ++ "&far_asn=" ++ far_asn ++
    "&start=" ++ strfCompact t0 ++ "&end=" ++ strfCompact t1 ++ "&is_congested=true"

/-- Function `get_result`: any `HTTPError` code makes the program exit. -/
def getResult (r : Except Nat JVal) : Except RunError JVal :=
  match r with
  | .ok j => .ok j
  | .error code => .error (.httpError code)

def MONTHS : Nat := 60

/-! ## The date-window generation step (`save_congestion` lines 106-109) -/

/-- Loop `for i in range(months): times.insert(0, times[0] - timedelta(days=30))`. -/
def genTimesAux : Nat → List Int → List Int
  | 0, ts => ts
  | n + 1, ts => genTimesAux n ((ts.headD 0 - timedeltaDays 30) :: ts)

/-- First `times = [now]`, then the insertion loop: `months + 1` boundaries,
oldest first, each 30 days apart, ending at `now`. -/
def genTimes (now : Int) (months : Nat) : List Int :=
  genTimesAux months [now]

/-- The windows actually queried: `(times[i], times[i+1])` for
`i in range(len(times) - 1)`. -/
def winPairs (now : Int) (months : Nat) : List (Int × Int) :=
  let ts := genTimes now months
  (List.range (ts.length - 1)).map fun i => (ts.getD i 0, ts.getD (i + 1) 0)

/-- The `/asrt` query URLs issued for one (near, far) pair. -/
def queryUrls (near_asn far_asn : String) (now : Int) (months : Nat) : List String :=
  (winPairs now months).map fun w => queryUrl near_asn far_asn w.1 w.2

/-! ## Event extraction (`save_congestion` lines 134-139)

`for data in json_result['data']: if data['data'] != []:
  for assertions in data['data']: ... assertions['time'] ... assertions['congestion']` -/

/-- The inner assertion loop: each assertion contributes its `time` and
`congestion` fields, in order. -/
def extractAssertions : List JVal → Except RunError (List (JVal × JVal))
  | [] => .ok []
  | a :: rest => do
    let t ← jget a "time"
    let c ← jget a "congestion"
    let more ← extractAssertions rest
    .ok ((t, c) :: more)

/-- The group loop: a group whose `data` equals `[]` is skipped; otherwise
its `data` is iterated and its assertions contribute in order. -/
def extractGroups : List JVal → Except RunError (List (JVal × JVal))
  | [] => .ok []
  | g :: rest => do
    let inner ← jget g "data"
    if isEmptyList inner then extractGroups rest
    else do
      let as ← pyIter inner
      let evs ← extractAssertions as
      let more ← extractGroups rest
      .ok (evs ++ more)

/-- Event extraction from one window's parsed response. -/
def extractJ (j : JVal) : Except RunError (List (JVal × JVal)) := do
  let groupsV ← jget j "data"
  let gs ← pyIter groupsV
  extractGroups gs

/-! ## Visualization links (`save_congestion` lines 142-156) -/

/-- The two visualization URLs for one assertion: day granularity
(`from` = the event's day, `to` = `from` + 2 days) and month granularity
(`from` = the event's day - 15 days, `to` = `from` + 30 days); a timestamp
whose first 10 characters fail `strptime` raises `ValueError`. -/
def buildLinks (timeStr near_asn far_asn : String) : Except RunError (String × String) :=
  match strptimeYmd (timeStr.take 10) with
  | none => .error .valueError
  | some d =>
    let dayLink := VIS_BASE ++ "&from=" ++ fmtCompact d ++ "&to=" ++ fmtCompact (d + 2) ++
      "&var-network=" ++ near_asn ++ "&var-asn=" ++ far_asn
    let mFrom := d - 15
    let monthLink := VIS_BASE ++ "&from=" ++ fmtCompact mFrom ++ "&to=" ++ fmtCompact (mFrom + 30) ++
      "&var-network=" ++ near_asn ++ "&var-asn=" ++ far_asn
    .ok (dayLink, monthLink)

/-! ## Sheets, rows and the per-pair window loop -/

/-- One data row of a sheet: written at sheet row `idx = x_val + 1`, with
the stringified time and congestion and the two links in columns 0-3. -/
structure Row where
  idx : Nat
  time : String
  congestion : String
  dayLink : String
  monthLink : String
  deriving DecidableEq, Repr

/-- The header written at sheet row 0, columns 0-3. -/
def sheetHeader : List String :=
  ["Time", "Congestion", "Visualization - Day Granularity",
   "Visualization - Month Granularity"]

/-- One sheet of the workbook: its name, the fixed header row 0, and the
data rows. -/
structure Sheet where
  name : String
  header : List String
  rows : List Row
  deriving DecidableEq, Repr

/-- One assertion's writes, given the link-building outcome `lr` and the
result `tail` of the remaining assertions: a `ValueError` aborts, else the
row is written at index `x_val + 1` ahead of the rest. -/
def rowStep (t c : JVal) (x_val : Nat) (lr : Except RunError (String × String))
    (tail : List Row × Option RunError) : List Row × Option RunError :=
  match lr with
  | .error e => ([], some e)
  | .ok links => (⟨x_val + 1, pyStr t, pyStr c, links.1, links.2⟩ :: tail.1, tail.2)

/-- The per-assertion writes for one window's extracted events, starting at
index `x_val`: errors abort with the rows already written. -/
def rowsOfEvents (near_asn far_asn : String) :
    List (JVal × JVal) → Nat → List Row × Option RunError
  | [], _ => ([], none)
  | (t, c) :: rest, x_val =>
    rowStep t c x_val (buildLinks (pyStr t) near_asn far_asn)
      (rowsOfEvents near_asn far_asn rest (x_val + 1))
termination_by structural evs x => evs

/-- The window loop of `save_congestion`: one query per window, extraction,
then one row per event, `x_val` carried across windows; returns the rows
written, the query URLs fetched, and the error that aborted the run, if
any. -/
def pairLoop (oracle : Oracle) (near_asn far_asn : String) :
    List (Int × Int) → Nat → List Row × List String × Option RunError
  | [], _ => ([], [], none)
  | (t0, t1) :: rest, x_val =>
    let url := queryUrl near_asn far_asn t0 t1
    match getResult (oracle url) with
    | .error e => ([], [url], some e)
    | .ok j =>
      match extractJ j with
      | .error e => ([], [url], some e)
      | .ok evs =>
        match rowsOfEvents near_asn far_asn evs x_val with
        | (rows, some e) => (rows, [url], some e)
        | (rows, none) =>
          let (more, calls, err) := pairLoop oracle near_asn far_asn rest (x_val + rows.length)
          (rows ++ more, url :: calls, err)
termination_by structural wins x => wins

/-- The events of all windows of a pair, concatenated in window order
(specification view of the same loop, for stating row/event agreement). -/
def windowEvents (oracle : Oracle) (near_asn far_asn : String) :
    List (Int × Int) → Except RunError (List (JVal × JVal))
  | [] => .ok []
  | (t0, t1) :: rest => do
    let j ← getResult (oracle (queryUrl near_asn far_asn t0 t1))
    let evs ← extractJ j
    let more ← windowEvents oracle near_asn far_asn rest
    .ok (evs ++ more)

/-! ## Far-ASN name resolution (`save_congestion` lines 100-113)

`far_name = get_result(FAR_MONITOR_URL)['data']['name']` always runs; the
override `if far_asn in asns.keys(): far_name = asns[far_asn]` then
replaces the fetched name. -/

/-- A Python string-to-string dict as an ordered association list. -/
abbrev Table : Type := List (String × String)

def tlookup (k : String) : List (String × String) → Option String
  | [] => none
  | kv :: kvs => if kv.1 = k then some kv.2 else tlookup k kvs

/-- Python dict update with one key: overwrite in place when the key exists,
append otherwise. -/
def pyDictSet (d : List (String × String)) (k v : String) : List (String × String) :=
  match d with
  | [] => [(k, v)]
  | kv :: kvs => if kv.1 = k then (k, v) :: kvs else kv :: pyDictSet kvs k v

/-- Loop `for network in networks.keys()` updating `asns` with each near network. -/
def pyUpdate (d upd : List (String × String)) : List (String × String) :=
  upd.foldl (fun acc kv => pyDictSet acc kv.1 kv.2) d

/-- The far name used for the sheet: the remote `/asns` lookup always runs
(its URL is the second component), and the `asns` table value replaces the
fetched name whenever the key is present. -/
def resolveFarName (oracle : Oracle) (table : List (String × String)) (far_asn : String) :
    Except RunError String × List String :=
  let url := monitorUrl far_asn
  match getResult (oracle url) with
  | .error e => (.error e, [url])
  | .ok j =>
    match jget j "data" with
    | .error e => (.error e, [url])
    | .ok dj =>
      match jget dj "name" with
      | .error e => (.error e, [url])
      | .ok nj =>
        match tlookup far_asn table with
        | some v => (.ok v, [url])
        | none => (.ok (pyStr nj), [url])

/-! ## `save_congestion` and the main loops -/

/-- The filesystem: filename to last `wb.save` snapshot, oldest first. -/
abbrev Files : Type := List (String × List Sheet)

/-- Writing `content` at `name`: overwrite an existing file, else create. -/
def setFile (files : Files) (name : String) (content : List Sheet) : Files :=
  match files with
  | [] => [(name, content)]
  | f :: fs => if f.1 = name then (name, content) :: fs else f :: setFile fs name content

def flookup (k : String) : List (String × List Sheet) → Option (List Sheet)
  | [] => none
  | kv :: kvs => if kv.1 = k then some kv.2 else flookup k kvs

/-- Function `save_congestion(near_asn, far_asn, wb, near_name, filename)`: resolve
the far name, add a sheet, loop over the windows writing one row per event,
and `wb.save(filename)` iff `x_val != 0`. Returns the new workbook, the new
filesystem, the URLs fetched, and the aborting error if any. -/
def saveCongestion (oracle : Oracle) (table : List (String × String)) (months : Nat)
    (now : Int) (near_asn far_asn filename : String) (wb : List Sheet) (files : Files) :
    List Sheet × Files × List String × Option RunError :=
  match resolveFarName oracle table far_asn with
  | (.error e, calls) => (wb, files, calls, some e)
  | (.ok farName, calls) =>
    let (rows, qcalls, err) := pairLoop oracle near_asn far_asn (winPairs now months) 0
    let wb' := wb ++ [⟨farName, sheetHeader, rows⟩]
    match err with
    | some e => (wb', files, calls ++ qcalls, some e)
    | none =>
      if rows.length ≠ 0 then (wb', setFile files filename wb', calls ++ qcalls, none)
      else (wb', files, calls ++ qcalls, none)

/-- Loop `for asn in asns: save_congestion(network, asn, wb, near_name, filename)`. -/
def runPairs (oracle : Oracle) (table : List (String × String)) (months : Nat)
    (now : Int) (near_asn filename : String) :
    List String → List Sheet → Files → List Sheet × Files × List String × Option RunError
  | [], wb, files => (wb, files, [], none)
  | far :: rest, wb, files =>
    match saveCongestion oracle table months now near_asn far filename wb files with
    | (wb', files', calls, some e) => (wb', files', calls, some e)
    | (wb', files', calls, none) =>
      let (wb'', files'', calls', err) :=
        runPairs oracle table months now near_asn filename rest wb' files'
      (wb'', files'', calls ++ calls', err)
termination_by structural fars wb files => fars

/-- One iteration of the network loop: fetch and subscript the near name
(`near_result['data']['name']`), build the filename from the `networks`
table, start a fresh workbook, and process every far ASN. -/
def runNetwork (oracle : Oracle) (networks table : List (String × String)) (months : Nat)
    (now : Int) (network : String) (files : Files) :
    Files × List String × Option RunError :=
  let url := monitorUrl network
  match getResult (oracle url) with
  | .error e => (files, [url], some e)
  | .ok j =>
    match jget j "data" with
    | .error e => (files, [url], some e)
    | .ok dj =>
      match jget dj "name" with
      | .error e => (files, [url], some e)
      | .ok _ =>
        let filename := (tlookup network networks).getD "" ++ ".xls"
        let (_, files', calls, err) :=
          runPairs oracle table months now network filename (table.map Prod.fst) [] files
        (files', url :: calls, err)

/-- The network loop of `__main__`; an error (`sys.exit` or an uncaught
exception) stops everything, leaving pending networks unprocessed. -/
def runMainAux (oracle : Oracle) (networks table : List (String × String)) (months : Nat)
    (now : Int) : List String → Files → Files × List String × Option RunError
  | [], files => (files, [], none)
  | network :: rest, files =>
    match runNetwork oracle networks table months now network files with
    | (files', calls, some e) => (files', calls, some e)
    | (files', calls, none) =>
      let (files'', calls', err) := runMainAux oracle networks table months now rest files'
      (files'', calls ++ calls', err)
termination_by structural ns files => ns

/-- The whole `__main__` run over given configuration tables: merge the
near-network keys into the far-ASN table, then process each network. -/
def runMain (oracle : Oracle) (networks asns0 : List (String × String)) (months : Nat)
    (now : Int) : Files × List String × Option RunError :=
  let table := pyUpdate asns0 networks
  runMainAux oracle networks table months now (networks.map Prod.fst) []

/-- The (near, far) pairs `save_congestion` is invoked on, in order. -/
def mainPairs (networks asns0 : List (String × String)) : List (String × String) :=
  let table := pyUpdate asns0 networks
  (networks.map Prod.fst).flatMap fun n => (table.map Prod.fst).map fun a => (n, a)

/-! ## The source's configuration tables (`__main__` lines 189-215) -/

/-- The near-network dictionary, `"ASN": "NAME"`. -/
def networks_src : List (String × String) :=
  [("7018", "AT&T"), ("209", "CENTURYLINK"), ("20115", "CHARTER"),
   ("7922", "COMCAST"), ("22773", "COX"), ("6939", "HURRICANE"),
   ("3356", "LEVEL3"), ("6079", "RCS"), ("18214", "TELUS-INTERNATIONAL"),
   ("852", "TELUS-CANADA"), ("7843", "TIME-WARNER-CABLE"),
   ("16115", "VERIZON-ASRANK"), ("701", "VERIZON-MANIC")]

/-- The far-ASN dictionary before the merge loop. -/
def asns_src : List (String × String) :=
  [("16509", "AMAZON-02"), ("40027", "NETFLIX"), ("20940", "AKAMAI"),
   ("8075", "MICROSOFT"), ("174", "CCOGENT")]

/-- The far-ASN table after `__main__`'s merge loop. -/
def asns_updated : List (String × String) := pyUpdate asns_src networks_src

/-! ## Well-formed responses, stated invariants, and concrete test runs -/

/-- A well-formed assertion, from a (time, congestion) value pair. -/
def toAssertJ (a : JVal × JVal) : JVal := .jobj [("time", a.1), ("congestion", a.2)]

/-- A well-formed group around its assertion list. -/
def toGroupJ (g : List (JVal × JVal)) : JVal := .jobj [("data", .jarr (g.map toAssertJ))]

/-- A well-formed window response around its group list. -/
def toRespJ (gs : List (List (JVal × JVal))) : JVal := .jobj [("data", .jarr (gs.map toGroupJ))]

/-- Every file on disk contains at least one sheet with a data row. -/
def FilesOK (files : Files) : Prop := ∀ f ∈ files, ∃ s ∈ f.2, s.rows ≠ []

/-- A fixed run start, 2019-05-18T00:00:00. -/
def cNow : Int := (toOrdinal 2019 5 18 : Int) * 86400

/-- A well-formed `/asns` naming response. -/
def nameResp : JVal := .jobj [("data", .jobj [("name", .jstr "REMOTE-NAME")])]

/-- A well-formed `/asrt` response with no groups. -/
def respEmptyData : JVal := .jobj [("data", .jarr [])]

/-- A well-formed `/asrt` response with one group holding one assertion. -/
def respOne : JVal := .jobj [("data", .jarr [.jobj [("data", .jarr
  [.jobj [("time", .jstr "2019-04-10T00:00:00"), ("congestion", .jnum 1)]])]])]

/-- An oracle whose every URL answers with a well-formed naming response. -/
def oracle_names : Oracle := fun _ => .ok nameResp

def networks_c : List (String × String) := [("N1", "NET1")]

def asns_c : List (String × String) := [("F1", "FARONE"), ("F2", "FARTWO")]

/-- Far F1 and the self-pair see no events, far F2 sees one event; every
other URL is a naming lookup. -/
def oracle_c5 : Oracle := fun url =>
  if url = queryUrl "N1" "F2" (cNow - timedeltaDays 30) cNow then .ok respOne
  else if url = queryUrl "N1" "F1" (cNow - timedeltaDays 30) cNow then .ok respEmptyData
  else if url = queryUrl "N1" "N1" (cNow - timedeltaDays 30) cNow then .ok respEmptyData
  else .ok nameResp

/-- One network, two configured far ASNs, one-month lookback, far F1 empty
then far F2 with one event. -/
def run_c5 : Files × List String × Option RunError :=
  runMain oracle_c5 networks_c asns_c 1 cNow

/-- The sheets of the one file `run_c5` writes. -/
def sheets_c5 : List Sheet := (flookup "NET1.xls" run_c5.1).getD []

def networks_c6 : List (String × String) := [("N1", "NET1"), ("N2", "NET2")]

def table_c6 : List (String × String) := pyUpdate asns_c networks_c6

/-- Far F1 of network N1 sees one event; far F2's window query then
answers HTTP 500. -/
def oracle_c6 : Oracle := fun url =>
  if url = queryUrl "N1" "F1" (cNow - timedeltaDays 30) cNow then .ok respOne
  else if url = queryUrl "N1" "F2" (cNow - timedeltaDays 30) cNow then .error 500
  else .ok nameResp

/-- Two networks; the 500 hits network N1's second pair, after its first
pair already saved a file. -/
def run_c6 : Files × List String × Option RunError :=
  runMain oracle_c6 networks_c6 asns_c 1 cNow

/-- The prefix of the `run_c6` network loop that aborts. -/
def aux_c6 : Files × List String × Option RunError :=
  runMainAux oracle_c6 networks_c6 table_c6 1 cNow ["N1"] []

/-- The rows, calls and events of `run_c5`'s (N1, F2) pair, for the row
indexing claim. -/
def rows_c7 : List Row := (pairLoop oracle_c5 "N1" "F2" (winPairs cNow 1) 0).1

def calls_c7 : List String := (pairLoop oracle_c5 "N1" "F2" (winPairs cNow 1) 0).2.1

def evs_c7 : List (JVal × JVal) :=
  (windowEvents oracle_c5 "N1" "F2" (winPairs cNow 1)).toOption.getD []

/-! ## Helper lemmas -/

theorem ok_bind {α β : Type} (a : α) (f : α → Except RunError β) :
    (do let x ← Except.ok a; f x) = f a := rfl

theorem error_bind {α β : Type} (e : RunError) (f : α → Except RunError β) :
    (do let x ← Except.error e; f x) = Except.error e := rfl

/-- Closed form of the boundary-insertion loop. -/
theorem genTimesAux_closed : ∀ (k : Nat) (a : Int) (l : List Int),
    genTimesAux k (a :: l) =
      ((List.range k).map fun i => a - ((k - i : Nat) : Int) * timedeltaDays 30) ++ a :: l
  | 0, a, l => by simp [genTimesAux]
  | k + 1, a, l => by
    have ih := genTimesAux_closed k (a - timedeltaDays 30) (a :: l)
    show genTimesAux k ((a - timedeltaDays 30) :: a :: l) = _
    rw [ih, List.range_succ, List.map_append]
    have h1 : ((List.range k).map fun i => a - timedeltaDays 30 - ((k - i : Nat) : Int) * timedeltaDays 30)
        = (List.range k).map fun i => a - ((k + 1 - i : Nat) : Int) * timedeltaDays 30 := by
      apply List.map_congr_left
      intro i hi
      have hik : i < k := List.mem_range.mp hi
      have hks : (k + 1 - i : Nat) = (k - i) + 1 := by omega
      rw [hks]
      push_cast
      ring
    rw [h1]
    have h2 : (k + 1 - k : Nat) = 1 := by omega
    simp [h2]

theorem genTimes_closed (now : Int) (n : Nat) :
    genTimes now n =
      ((List.range n).map fun i => now - ((n - i : Nat) : Int) * timedeltaDays 30) ++ [now] :=
  genTimesAux_closed n now []

theorem genTimes_length (now : Int) (n : Nat) : (genTimes now n).length = n + 1 := by
  rw [genTimes_closed]; simp

theorem genTimes_getD (now : Int) (n i : Nat) (h : i ≤ n) :
    (genTimes now n).getD i 0 = now - ((n - i : Nat) : Int) * timedeltaDays 30 := by
  rw [genTimes_closed]
  rcases Nat.lt_or_ge i n with hlt | hge
  · rw [List.getD_append _ _ _ _ (by simpa using hlt)]
    rw [List.getD_eq_getElem?_getD, List.getElem?_map, List.getElem?_range hlt]
    rfl
  · have hin : i = n := le_antisymm h hge
    subst hin
    rw [List.getD_eq_getElem?_getD, List.getElem?_append_right (by simp)]
    simp

theorem winPairs_eq (now : Int) (n : Nat) :
    winPairs now n = (List.range n).map fun i =>
      (now - ((n - i : Nat) : Int) * timedeltaDays 30,
       now - ((n - (i + 1) : Nat) : Int) * timedeltaDays 30) := by
  simp only [winPairs, genTimes_length, Nat.add_sub_cancel]
  apply List.map_congr_left
  intro i hi
  have hik : i < n := List.mem_range.mp hi
  rw [genTimes_getD now n i (by omega), genTimes_getD now n (i + 1) (by omega)]

theorem winPairs_length (now : Int) (n : Nat) : (winPairs now n).length = n := by
  rw [winPairs_eq]; simp

theorem winPairs_getD (now : Int) (n i : Nat) (h : i < n) :
    (winPairs now n).getD i (0, 0) =
      (now - ((n - i : Nat) : Int) * timedeltaDays 30,
       now - ((n - (i + 1) : Nat) : Int) * timedeltaDays 30) := by
  rw [winPairs_eq, List.getD_eq_getElem?_getD, List.getElem?_map, List.getElem?_range h]
  rfl

theorem extractAssertions_toAssertJ (g : List (JVal × JVal)) :
    extractAssertions (g.map toAssertJ) = .ok g := by
  induction g with
  | nil => rfl
  | cons a rest ih =>
    simp [extractAssertions, toAssertJ, jget, jlookup, ih, ok_bind]

theorem extractGroups_toGroupJ (gs : List (List (JVal × JVal))) :
    extractGroups (gs.map toGroupJ) = .ok (gs.flatMap id) := by
  induction gs with
  | nil => rfl
  | cons g rest ih =>
    cases g with
    | nil => simp [extractGroups, toGroupJ, jget, jlookup, isEmptyList, ih, ok_bind]
    | cons a g' =>
      have h := extractAssertions_toAssertJ (a :: g')
      simp only [List.map_cons] at h
      simp [extractGroups, toGroupJ, jget, jlookup, isEmptyList, pyIter, h, ih, ok_bind]

/-! ## The claims -/

/-- C1: for every `month_count ≥ 0` and anchor `A`, window generation
produces exactly `month_count` windows, each exactly 30 days wide,
contiguous and non-overlapping, ordered oldest to newest, the last
window's end equal to `A`; `month_count = 0` produces no windows and no
query is issued for the pair. -/
theorem window_generation_c1 (n : Nat) (now : Int) :
    (winPairs now n).length = n ∧
    (∀ w ∈ winPairs now n, w.2 - w.1 = timedeltaDays 30) ∧
    (∀ i, i + 1 < n →
      ((winPairs now n).getD (i + 1) (0, 0)).1 = ((winPairs now n).getD i (0, 0)).2) ∧
    (∀ i j, i < j → j < n →
      ((winPairs now n).getD i (0, 0)).1 < ((winPairs now n).getD j (0, 0)).1 ∧
      ((winPairs now n).getD i (0, 0)).2 ≤ ((winPairs now n).getD j (0, 0)).1) ∧
    (0 < n → ((winPairs now n).getLast?).map Prod.snd = some now) ∧
    winPairs now 0 = [] ∧
    (∀ near far, queryUrls near far now 0 = []) ∧
    (∀ oracle near far x, pairLoop oracle near far (winPairs now 0) x = ([], [], none)) := by
  refine ⟨winPairs_length now n, ?_, ?_, ?_, ?_, rfl, fun _ _ => rfl, fun _ _ _ _ => rfl⟩
  · intro w hw
    rw [winPairs_eq] at hw
    obtain ⟨i, hi, rfl⟩ := List.mem_map.mp hw
    have hik : i < n := List.mem_range.mp hi
    have h1 : (n - (i + 1) : Nat) + 1 = (n - i : Nat) := by omega
    have h2 : ((n - i : Nat) : Int) = ((n - (i + 1) : Nat) : Int) + 1 := by
      rw [← h1]; push_cast; ring
    simp only [h2]
    ring
  · intro i hi
    rw [winPairs_getD now n i (by omega), winPairs_getD now n (i + 1) (by omega)]
  · intro i j hij hjn
    rw [winPairs_getD now n i (by omega), winPairs_getD now n j (by omega)]
    constructor
    · simp only [timedeltaDays, secondsPerDay]
      norm_num
      omega
    · simp only [timedeltaDays, secondsPerDay]
      norm_num
      omega
  · intro hn
    rw [winPairs_eq, List.getLast?_eq_getElem?]
    have hlen : ((List.range n).map fun i =>
        (now - ((n - i : Nat) : Int) * timedeltaDays 30,
         now - ((n - (i + 1) : Nat) : Int) * timedeltaDays 30)).length = n := by simp
    rw [hlen, List.getElem?_map, List.getElem?_range (by omega : n - 1 < n)]
    have h3 : n - (n - 1 + 1) = 0 := by omega
    simp [h3]

/-- C1 witness: two 30-day windows anchored at 0 are contiguous. -/
theorem window_generation_c1_witness :
    ((winPairs 0 2).getD 1 (0, 0)).1 = ((winPairs 0 2).getD 0 (0, 0)).2 :=
  (window_generation_c1 2 0).2.2.1 0 (by decide)

/-- C2: each event's day-granularity link runs from the event's calendar
day to that day plus 2 days, and its month-granularity link from the event
day minus 15 days to that plus 30 days, in compact `YYYYMMDD` form; the
event `2019-04-10T00:00:00` yields day `20190410`-`20190412` and month
`20190326`-`20190425`. -/
theorem vis_links_c2 :
    (∀ (t near far : String) (d : Nat), strptimeYmd (t.take 10) = some d →
      buildLinks t near far = .ok
        (VIS_BASE ++ "&from=" ++ fmtCompact d ++ "&to=" ++ fmtCompact (d + 2) ++
           "&var-network=" ++ near ++ "&var-asn=" ++ far,
         VIS_BASE ++ "&from=" ++ fmtCompact (d - 15) ++ "&to=" ++ fmtCompact (d - 15 + 30) ++
           "&var-network=" ++ near ++ "&var-asn=" ++ far)) ∧
    buildLinks "2019-04-10T00:00:00" "7018" "16509" = .ok
      (VIS_BASE ++ "&from=20190410&to=20190412&var-network=7018&var-asn=16509",
       VIS_BASE ++ "&from=20190326&to=20190425&var-network=7018&var-asn=16509") := by
  constructor
  · intro t near far d h
    unfold buildLinks
    rw [h]
  · rfl

/-- C2 witness: the universal part applied to the example timestamp. -/
theorem vis_links_c2_witness :
    strptimeYmd ("2019-04-10T00:00:00".take 10) = some 737464 ∧
    buildLinks "2019-04-10T00:00:00" "7018" "16509" = .ok
      (VIS_BASE ++ "&from=" ++ fmtCompact 737464 ++ "&to=" ++ fmtCompact (737464 + 2) ++
         "&var-network=" ++ "7018" ++ "&var-asn=" ++ "16509",
       VIS_BASE ++ "&from=" ++ fmtCompact (737464 - 15) ++ "&to=" ++ fmtCompact (737464 - 15 + 30) ++
         "&var-network=" ++ "7018" ++ "&var-asn=" ++ "16509") :=
  ⟨by decide, vis_links_c2.1 "2019-04-10T00:00:00" "7018" "16509" 737464 (by decide)⟩

/-- C3: on a well-formed response, extraction flattens the groups in
order, each assertion contributing its (time, congestion) once, empty
groups contributing nothing; `data = []`, one empty group, and one group
of two assertions behave as stated. -/
theorem extract_events_c3 :
    (∀ gs : List (List (JVal × JVal)), extractJ (toRespJ gs) = .ok (gs.flatMap id)) ∧
    extractJ (toRespJ []) = .ok [] ∧
    extractJ (toRespJ [[]]) = .ok [] ∧
    (∀ a b : JVal × JVal, extractJ (toRespJ [[a, b]]) = .ok [a, b]) := by
  have hmain : ∀ gs : List (List (JVal × JVal)), extractJ (toRespJ gs) = .ok (gs.flatMap id) := by
    intro gs
    simp [extractJ, toRespJ, jget, jlookup, pyIter, extractGroups_toGroupJ, ok_bind]
  exact ⟨hmain, hmain [], hmain [[]], fun a b => by simpa using hmain [[a, b]]⟩

/-- C10: the link pair depends only on the first 10 characters of the
timestamp string (plus the near/far pair). -/
theorem link_day_only_c10 (t1 t2 near far : String) (h : t1.take 10 = t2.take 10) :
    buildLinks t1 near far = buildLinks t2 near far := by
  unfold buildLinks
  rw [h]

/-- C10 witness: two same-day timestamps produce identical link pairs. -/
theorem link_day_only_c10_witness :
    "2019-04-10T00:00:00".take 10 = "2019-04-10T23:59:59".take 10 ∧
    buildLinks "2019-04-10T00:00:00" "7018" "40027" =
      buildLinks "2019-04-10T23:59:59" "7018" "40027" :=
  ⟨by decide, link_day_only_c10 _ _ _ _ (by decide)⟩

/-- C4 (amended): for an ASN in the override table, name resolution
returns the table's mapped value - but only after performing exactly one
remote naming call, whose successfully fetched name is discarded. -/
theorem override_resolution_c4 (oracle : Oracle) (table : Table)
    (asn v : String) (j dj nj : JVal)
    (hv : tlookup asn table = some v)
    (ho : oracle (monitorUrl asn) = .ok j)
    (hd : jget j "data" = .ok dj)
    (hn : jget dj "name" = .ok nj) :
    resolveFarName oracle table asn = (.ok v, [monitorUrl asn]) := by
  simp only [resolveFarName, ho, getResult, hd, hn, hv]

/-- C4 witness: ASN 40027 resolves to its table name NETFLIX. -/
theorem override_resolution_c4_witness :
    resolveFarName oracle_names asns_updated "40027" = (.ok "NETFLIX", [monitorUrl "40027"]) :=
  override_resolution_c4 oracle_names asns_updated "40027" "NETFLIX" nameResp
    (.jobj [("name", .jstr "REMOTE-NAME")]) (.jstr "REMOTE-NAME") (by decide) rfl rfl rfl

/-- C4 counterexample: ASN 16509 is in the override table and resolution
returns the table value, yet the remote naming call is still performed -
refuting the claim that no remote call happens for overridden ASNs. -/
theorem override_resolution_c4_cex :
    (resolveFarName oracle_names asns_updated "16509").1 = .ok "AMAZON-02" ∧
    (resolveFarName oracle_names asns_updated "16509").2 = [monitorUrl "16509"] ∧
    [monitorUrl "16509"] ≠ ([] : List String) :=
  ⟨rfl, rfl, by decide⟩

/-- Unfolding of the window loop on a first window. -/
theorem pairLoop_cons (oracle : Oracle) (near far : String) (t0 t1 : Int)
    (rest : List (Int × Int)) (x : Nat) :
    pairLoop oracle near far ((t0, t1) :: rest) x =
      match getResult (oracle (queryUrl near far t0 t1)) with
      | .error e => ([], [queryUrl near far t0 t1], some e)
      | .ok j =>
        match extractJ j with
        | .error e => ([], [queryUrl near far t0 t1], some e)
        | .ok evs =>
          match rowsOfEvents near far evs x with
          | (rows, some e) => (rows, [queryUrl near far t0 t1], some e)
          | (rows, none) =>
            (rows ++ (pairLoop oracle near far rest (x + rows.length)).1,
             queryUrl near far t0 t1 :: (pairLoop oracle near far rest (x + rows.length)).2.1,
             (pairLoop oracle near far rest (x + rows.length)).2.2) := by
  simp only [pairLoop]

/-- Successful per-window row writing: one row per event, indices counting
on from `x`, values the stringified time and congestion. -/
theorem rowsOfEvents_ok (near far : String) :
    ∀ (evs : List (JVal × JVal)) (x : Nat) (rows : List Row),
      rowsOfEvents near far evs x = (rows, none) →
      rows.length = evs.length ∧
      rows.map Row.idx = List.range' (x + 1) evs.length ∧
      rows.map (fun r => (r.time, r.congestion)) = evs.map fun e => (pyStr e.1, pyStr e.2)
  | [], x, rows => by
    intro h
    simp only [rowsOfEvents, Prod.mk.injEq] at h
    rw [← h.1]
    simp [List.range']
  | (t, c) :: rest, x, rows => by
    intro h
    simp only [rowsOfEvents] at h
    rcases hb : buildLinks (pyStr t) near far with e | links
    · rw [hb] at h
      simp [rowStep] at h
    · rw [hb] at h
      rcases hr : rowsOfEvents near far rest (x + 1) with ⟨more, err⟩
      rw [hr] at h
      simp only [rowStep, Prod.mk.injEq] at h
      obtain ⟨hrows, herr⟩ := h
      subst herr
      obtain ⟨h1, h2, h3⟩ := rowsOfEvents_ok near far rest (x + 1) more hr
      rw [← hrows]
      refine ⟨by simp [h1], ?_, ?_⟩
      · simp only [List.map_cons, List.length_cons, h2]
        rw [List.range'_succ]
      · simp [h3]

/-- A pair's completed window loop writes one row per extracted event,
row indices counting on from `x` across windows, in extraction order. -/
theorem pairLoop_rows (oracle : Oracle) (near far : String) :
    ∀ (wins : List (Int × Int)) (x : Nat) (rows : List Row) (calls : List String)
      (evs : List (JVal × JVal)),
      pairLoop oracle near far wins x = (rows, calls, none) →
      windowEvents oracle near far wins = .ok evs →
      rows.length = evs.length ∧
      rows.map Row.idx = List.range' (x + 1) evs.length ∧
      rows.map (fun r => (r.time, r.congestion)) = evs.map fun e => (pyStr e.1, pyStr e.2)
  | [], x, rows, calls, evs => by
    intro h1 h2
    simp only [pairLoop, Prod.mk.injEq] at h1
    simp only [windowEvents, Except.ok.injEq] at h2
    rw [← h1.1, ← h2]
    simp [List.range']
  | (t0, t1) :: rest, x, rows, calls, evs => by
    intro h1 h2
    rw [pairLoop_cons] at h1
    simp only [windowEvents] at h2
    split at h1
    · simp at h1
    · next j hg =>
      rw [hg, ok_bind] at h2
      split at h1
      · simp at h1
      · next evs1 he =>
        rw [he, ok_bind] at h2
        split at h1
        · simp at h1
        · next rows1 hr =>
          simp only [Prod.mk.injEq] at h1
          obtain ⟨hrows, hcalls, herr⟩ := h1
          rcases hp : pairLoop oracle near far rest (x + rows1.length) with ⟨rows2, calls2, err2⟩
          rw [hp] at hrows hcalls herr
          rcases hw : windowEvents oracle near far rest with e | evs2
          · rw [hw, error_bind] at h2
            exact absurd h2 (by simp)
          · rw [hw, ok_bind] at h2
            simp only [Except.ok.injEq] at h2
            subst herr
            obtain ⟨ha1, ha2, ha3⟩ := rowsOfEvents_ok near far evs1 x rows1 hr
            obtain ⟨hb1, hb2, hb3⟩ :=
              pairLoop_rows oracle near far rest (x + rows1.length) rows2 calls2 evs2
                (by rw [hp]) hw
            rw [← hrows, ← h2]
            refine ⟨by simp [ha1, hb1], ?_, ?_⟩
            · rw [List.map_append, ha2, hb2]
              have hx : x + rows1.length + 1 = (x + 1) + 1 * evs1.length := by
                rw [ha1]; ring
              rw [hx, List.range'_append]
              simp [Nat.add_comm]
            · rw [List.map_append, ha3, hb3, ← List.map_append]


/-- C7: within one pair's sheet, data rows start at row 1 (row 0 is the
header, fixed at sheet creation), the row index grows by one per event
across all windows without a per-window reset, and the finished sheet has
exactly the extracted events as rows, in extraction order. -/
theorem sheet_rows_c7 :
    (∀ (oracle : Oracle) (near far : String) (wins : List (Int × Int))
       (rows : List Row) (calls : List String) (evs : List (JVal × JVal)),
      pairLoop oracle near far wins 0 = (rows, calls, none) →
      windowEvents oracle near far wins = .ok evs →
      rows.length = evs.length ∧
      rows.map Row.idx = List.range' 1 evs.length ∧
      rows.map (fun r => (r.time, r.congestion)) = evs.map fun e => (pyStr e.1, pyStr e.2)) ∧
    (∀ (oracle : Oracle) (table : Table) (months : Nat) (now : Int)
       (near far filename farName : String) (wb : List Sheet) (files : Files)
       (calls : List String),
      resolveFarName oracle table far = (.ok farName, calls) →
      (saveCongestion oracle table months now near far filename wb files).1 =
        wb ++ [⟨farName, sheetHeader, (pairLoop oracle near far (winPairs now months) 0).1⟩]) := by
  constructor
  · intro oracle near far wins rows calls evs h1 h2
    have h := pairLoop_rows oracle near far wins 0 rows calls evs h1 h2
    simpa using h
  · intro oracle table months now near far filename farName wb files calls h
    simp only [saveCongestion, h]
    rcases hp : pairLoop oracle near far (winPairs now months) 0 with ⟨rows, qcalls, err⟩
    rcases err with _ | e
    · by_cases hz : rows.length = 0 <;> simp [hz]
    · simp

/-- C7 witness: the one-event pair of the concrete run. -/
theorem sheet_rows_c7_witness :
    rows_c7.length = evs_c7.length ∧
    rows_c7.map Row.idx = List.range' 1 evs_c7.length ∧
    rows_c7.map (fun r => (r.time, r.congestion)) = evs_c7.map fun e => (pyStr e.1, pyStr e.2) :=
  sheet_rows_c7.1 oracle_c5 "N1" "F2" (winPairs cNow 1) rows_c7 calls_c7 evs_c7 rfl rfl


/-- A successful filesystem lookup comes from an entry of the table. -/
theorem flookup_mem : ∀ (files : Files) (k : String) (v : List Sheet),
    flookup k files = some v → (k, v) ∈ files
  | [], k, v => by
    intro h
    simp [flookup] at h
  | f :: fs, k, v => by
    intro h
    rw [flookup] at h
    by_cases hk : f.1 = k
    · rw [if_pos hk] at h
      simp only [Option.some.injEq] at h
      have hfv : f = (k, v) := by
        rcases f with ⟨f1, f2⟩
        simp only at hk h
        rw [hk, h]
      rw [← hfv]
      exact List.mem_cons_self f fs
    · rw [if_neg hk] at h
      exact List.mem_cons_of_mem f (flookup_mem fs k v h)

/-- Writing a workbook holding a non-empty sheet preserves the invariant
that every file on disk holds a non-empty sheet. -/
theorem setFile_ok : ∀ (files : Files) (name : String) (content : List Sheet),
    FilesOK files → (∃ s ∈ content, s.rows ≠ []) → FilesOK (setFile files name content)
  | [], name, content => by
    intro hf hc f hmem
    simp only [setFile, List.mem_singleton] at hmem
    rw [hmem]
    exact hc
  | g :: gs, name, content => by
    intro hf hc f hmem
    rw [setFile] at hmem
    by_cases hk : g.1 = name
    · rw [if_pos hk] at hmem
      rcases List.mem_cons.mp hmem with h | h
      · rw [h]
        exact hc
      · exact hf f (List.mem_cons_of_mem g h)
    · rw [if_neg hk] at hmem
      rcases List.mem_cons.mp hmem with h | h
      · rw [h]
        exact hf g (List.mem_cons_self g gs)
      · exact setFile_ok gs name content (fun f' hf' => hf f' (List.mem_cons_of_mem g hf')) hc f h

/-- One pair's processing preserves the non-empty-sheet file invariant:
the only write is guarded by `x_val != 0`, and the sheet just built then
has a data row. -/
theorem saveCongestion_filesOK (oracle : Oracle) (table : Table) (months : Nat) (now : Int)
    (near far filename : String) (wb : List Sheet) (files : Files) (hf : FilesOK files) :
    FilesOK (saveCongestion oracle table months now near far filename wb files).2.1 := by
  rcases hres : resolveFarName oracle table far with ⟨res, calls⟩
  rcases res with e | farName
  · simp only [saveCongestion, hres]
    exact hf
  · simp only [saveCongestion, hres]
    rcases hp : pairLoop oracle near far (winPairs now months) 0 with ⟨rows, qcalls, err⟩
    rcases err with _ | e
    · by_cases hz : rows.length = 0
      · simp [hz]
        exact hf
      · simp [hz]
        apply setFile_ok files filename _ hf
        refine ⟨⟨farName, sheetHeader, rows⟩, by simp, ?_⟩
        intro hnil
        simp only [] at hnil
        apply hz
        simp [hnil]
    · simp
      exact hf

/-- The far-ASN loop preserves the non-empty-sheet file invariant. -/
theorem runPairs_filesOK (oracle : Oracle) (table : Table) (months : Nat) (now : Int)
    (near filename : String) :
    ∀ (fars : List String) (wb : List Sheet) (files : Files), FilesOK files →
      FilesOK (runPairs oracle table months now near filename fars wb files).2.1
  | [], wb, files => fun hf => hf
  | far :: rest, wb, files => by
    intro hf
    rw [runPairs]
    rcases hsc : saveCongestion oracle table months now near far filename wb files
      with ⟨wb', files', calls, err⟩
    have hf' : FilesOK files' := by
      have h := saveCongestion_filesOK oracle table months now near far filename wb files hf
      rw [hsc] at h
      exact h
    rcases err with _ | e
    · simp only
      rcases hrp : runPairs oracle table months now near filename rest wb' files'
        with ⟨wb'', files'', calls', err'⟩
      have h2 := runPairs_filesOK oracle table months now near filename rest wb' files' hf'
      rw [hrp] at h2
      simp only
      exact h2
    · exact hf'


/-- One network's processing preserves the non-empty-sheet file invariant. -/
theorem runNetwork_filesOK (oracle : Oracle) (networks table : Table) (months : Nat)
    (now : Int) (network : String) (files : Files) (hf : FilesOK files) :
    FilesOK (runNetwork oracle networks table months now network files).1 := by
  rw [runNetwork]
  split
  · exact hf
  · split
    · exact hf
    · split
      · exact hf
      · show FilesOK ((match runPairs oracle table months now network
            ((tlookup network networks).getD "" ++ ".xls") (table.map Prod.fst) [] files with
          | (_, files', calls, err) => (files', monitorUrl network :: calls, err)).1)
        split
        next wb' files' calls err heq =>
          have h := runPairs_filesOK oracle table months now network
            ((tlookup network networks).getD "" ++ ".xls") (table.map Prod.fst) [] files hf
          rw [heq] at h
          exact h

/-- The network loop preserves the non-empty-sheet file invariant. -/
theorem runMainAux_filesOK (oracle : Oracle) (networks table : Table) (months : Nat)
    (now : Int) :
    ∀ (ns : List String) (files : Files), FilesOK files →
      FilesOK (runMainAux oracle networks table months now ns files).1
  | [], files => fun hf => hf
  | n :: rest, files => by
    intro hf
    rw [runMainAux]
    rcases hn : runNetwork oracle networks table months now n files with ⟨files', calls, err⟩
    have hf' : FilesOK files' := by
      have h := runNetwork_filesOK oracle networks table months now n files hf
      rw [hn] at h
      exact h
    rcases err with _ | e
    · simp only
      rcases hr : runMainAux oracle networks table months now rest files'
        with ⟨files'', calls', err'⟩
      have h2 := runMainAux_filesOK oracle networks table months now rest files' hf'
      rw [hr] at h2
      exact h2
    · exact hf'

/-- C5 (amended): every report file a run writes contains at least one
sheet with a data row (the sheet of the pair whose save produced it);
zero-row sheets of other pairs, however, are not discarded and may be
persisted alongside it. -/
theorem report_files_c5 (oracle : Oracle) (networks asns0 : Table) (months : Nat)
    (now : Int) (fname : String) (sheets : List Sheet)
    (h : flookup fname (runMain oracle networks asns0 months now).1 = some sheets) :
    ∃ s ∈ sheets, s.rows ≠ [] := by
  have hok : FilesOK (runMain oracle networks asns0 months now).1 := by
    apply runMainAux_filesOK
    intro f hmem
    exact absurd hmem (List.not_mem_nil f)
  exact hok (fname, sheets) (flookup_mem _ fname sheets h)

/-- C5 witness: the file of the concrete run has a non-empty sheet. -/
theorem report_files_c5_witness :
    flookup "NET1.xls" run_c5.1 = some sheets_c5 ∧ ∃ s ∈ sheets_c5, s.rows ≠ [] :=
  ⟨rfl, report_files_c5 oracle_c5 networks_c asns_c 1 cNow "NET1.xls" sheets_c5 rfl⟩

/-- C5 counterexample: a completed run whose written report file contains
a sheet with zero data rows (far F1, queried before the pair that saved),
refuting the claim that a zero-row sheet is never persisted. -/
theorem report_files_c5_cex :
    (flookup "NET1.xls" run_c5.1).map (List.map fun s => (s.name, s.rows.length)) =
      some [("FARONE", 0), ("FARTWO", 1)] ∧
    run_c5.2.2 = none := by
  constructor
  · decide
  · decide


/-- A network-loop prefix that aborts determines the whole run: the
remaining networks are never processed and the filesystem is unchanged. -/
theorem runMainAux_append (oracle : Oracle) (networks table : Table) (months : Nat)
    (now : Int) :
    ∀ (ns1 ns2 : List String) (files files' : Files) (calls : List String) (e : RunError),
      runMainAux oracle networks table months now ns1 files = (files', calls, some e) →
      runMainAux oracle networks table months now (ns1 ++ ns2) files = (files', calls, some e)
  | [], ns2, files, files', calls, e => by
    intro h
    simp [runMainAux] at h
  | n :: rest, ns2, files, files', calls, e => by
    intro h
    rw [runMainAux] at h
    rw [List.cons_append, runMainAux]
    split at h
    · next files1 calls1 e1 heq =>
      exact h
    · next files1 calls1 heq =>
      split at h
      next files2 calls2 err2 heq2 =>
        simp only [Prod.mk.injEq] at h
        obtain ⟨h1, h2, h3⟩ := h
        have hrec := runMainAux_append oracle networks table months now rest ns2 files1 files2 calls2 e (by rw [heq2, h3])
        rw [hrec]
        simp [h1, h2]


/-- C6 (amended): an HTTP error on a window's query aborts immediately:
the failing URL is fetched once with no retry and nothing later in the
pair runs, and an aborted network-loop prefix is the whole run, so no
further file is written and pending networks are never processed; a file
already saved for the in-progress network by an earlier pair remains. -/
theorem abort_500_c6 :
    (∀ (oracle : Oracle) (near far : String) (t0 t1 : Int) (rest : List (Int × Int))
       (x c : Nat),
      oracle (queryUrl near far t0 t1) = .error c →
      pairLoop oracle near far ((t0, t1) :: rest) x =
        ([], [queryUrl near far t0 t1], some (.httpError c))) ∧
    (∀ (oracle : Oracle) (networks table : Table) (months : Nat) (now : Int)
       (ns1 ns2 : List String) (files files' : Files) (calls : List String) (e : RunError),
      runMainAux oracle networks table months now ns1 files = (files', calls, some e) →
      runMainAux oracle networks table months now (ns1 ++ ns2) files = (files', calls, some e)) := by
  constructor
  · intro oracle near far t0 t1 rest x c h
    rw [pairLoop_cons, h]
    rfl
  · exact runMainAux_append

/-- C6 witness: the aborted one-network prefix of the concrete run
determines the two-network run. -/
theorem abort_500_c6_witness :
    aux_c6.2.2 = some (.httpError 500) ∧
    runMainAux oracle_c6 networks_c6 table_c6 1 cNow (["N1"] ++ ["N2"]) [] =
      (aux_c6.1, aux_c6.2.1, some (.httpError 500)) :=
  ⟨rfl, abort_500_c6.2 oracle_c6 networks_c6 table_c6 1 cNow ["N1"] ["N2"] [] aux_c6.1 aux_c6.2.1
    (.httpError 500) rfl⟩

/-- C6 counterexample: a run whose second pair hits HTTP 500 aborts with
the error and never touches the pending network, yet a report file for the
in-progress network is on disk, written by the first pair before the
failure - refuting the claim that no file is written for the in-progress
network. -/
theorem abort_500_c6_cex :
    run_c6.2.2 = some (.httpError 500) ∧
    (flookup "NET1.xls" run_c6.1).map (List.map fun s => (s.name, s.rows.length)) =
      some [("FARONE", 1)] ∧
    flookup "NET2.xls" run_c6.1 = none ∧
    run_c6.2.1.count (queryUrl "N1" "F2" (cNow - timedeltaDays 30) cNow) = 1 :=
  ⟨by decide, by decide, by decide, by decide⟩

/-- If fetching and extracting any window of the list fails, the window
loop does not finish cleanly. -/
theorem pairLoop_err_of_mem (oracle : Oracle) (near far : String) :
    ∀ (wins : List (Int × Int)) (x : Nat) (w : Int × Int) (e : RunError),
      w ∈ wins →
      (do let j ← getResult (oracle (queryUrl near far w.1 w.2)); extractJ j) = .error e →
      (pairLoop oracle near far wins x).2.2 ≠ none
  | [], x, w, e => by
    intro hw hfe
    exact absurd hw (List.not_mem_nil w)
  | (t0, t1) :: rest, x, w, e => by
    intro hw hfe
    rw [pairLoop_cons]
    rcases List.mem_cons.mp hw with heq | hmem
    · rw [heq] at hfe
      simp only [] at hfe
      rcases hg : getResult (oracle (queryUrl near far t0 t1)) with e' | j
      · simp [hg]
      · rw [hg, ok_bind] at hfe
        simp [hg, hfe]
    · rcases hg : getResult (oracle (queryUrl near far t0 t1)) with e' | j
      · simp [hg]
      · rcases he : extractJ j with e' | evs1
        · simp [hg, he]
        · rcases hr : rowsOfEvents near far evs1 x with ⟨rows1, err1⟩
          rcases err1 with _ | e1
          · have ih := pairLoop_err_of_mem oracle near far rest (x + rows1.length) w e hmem hfe
            simpa [hg, he, hr] using ih
          · simp [hg, he, hr]

/-- C8 (amended): an absent top-level data field fails extraction with the
KeyError-based malformed-response error, any window whose fetch-and-extract
fails prevents the pair's window loop from finishing cleanly, and a pair
whose window loop fails makes save_congestion abort with that error and
write nothing. -/
theorem malformed_c8 :
    (∀ (j : JVal) (e : RunError), jget j "data" = .error e → extractJ j = .error e) ∧
    (∀ kvs : List (String × JVal), jlookup "data" kvs = none →
      extractJ (.jobj kvs) = .error .keyError) ∧
    (∀ (oracle : Oracle) (near far : String) (wins : List (Int × Int)) (x : Nat)
       (w : Int × Int) (e : RunError), w ∈ wins →
      (do let j ← getResult (oracle (queryUrl near far w.1 w.2)); extractJ j) = .error e →
      (pairLoop oracle near far wins x).2.2 ≠ none) ∧
    (∀ (oracle : Oracle) (table : Table) (months : Nat) (now : Int)
       (near far filename farName : String) (wb : List Sheet) (files : Files)
       (calls qcalls : List String) (rows : List Row) (e : RunError),
      resolveFarName oracle table far = (.ok farName, calls) →
      pairLoop oracle near far (winPairs now months) 0 = (rows, qcalls, some e) →
      (saveCongestion oracle table months now near far filename wb files).2.1 = files ∧
      (saveCongestion oracle table months now near far filename wb files).2.2.2 = some e) := by
  refine ⟨?_, ?_, pairLoop_err_of_mem, ?_⟩
  · intro j e h
    simp only [extractJ, h, error_bind]
  · intro kvs h
    simp [extractJ, jget, h, error_bind]
  · intro oracle table months now near far filename farName wb files calls qcalls rows e hres hp
    constructor
    · simp [saveCongestion, hres, hp]
    · simp [saveCongestion, hres, hp]

/-- C8 witness: extraction of a response without a data field fails. -/
theorem malformed_c8_witness :
    jget (.jobj [("nope", .jnum 1)]) "data" = .error .keyError ∧
    extractJ (.jobj [("nope", .jnum 1)]) = .error .keyError :=
  ⟨rfl, malformed_c8.1 (.jobj [("nope", .jnum 1)]) .keyError rfl⟩

/-- C8 counterexample: a response whose data field is an empty dict (or
empty string) is not the embedding of any well-formed response, yet
extraction silently yields an empty event sequence instead of failing -
refuting the claim that a malformed response never silently yields an
empty sequence. -/
theorem malformed_c8_cex :
    extractJ (.jobj [("data", .jobj [])]) = .ok [] ∧
    extractJ (.jobj [("data", .jstr "")]) = .ok [] ∧
    (∀ gs : List (List (JVal × JVal)), toRespJ gs ≠ .jobj [("data", .jobj [])]) := by
  refine ⟨rfl, rfl, ?_⟩
  intro gs h
  simp [toRespJ] at h


/-- C9: the far-ASN table after the merge loop is the configured far set
followed by every near network (whose display name the table maps it to,
feeding the override), and the run queries every near network against
itself, every other near network, and every configured far ASN. -/
theorem far_set_union_c9 :
    asns_updated.map Prod.fst = asns_src.map Prod.fst ++ networks_src.map Prod.fst ∧
    (∀ p ∈ networks_src, tlookup p.1 asns_updated = some p.2) ∧
    (∀ p ∈ asns_src, tlookup p.1 asns_updated = some p.2) ∧
    (∀ p ∈ networks_src, (p.1, p.1) ∈ mainPairs networks_src asns_src) ∧
    (∀ p ∈ networks_src, ∀ q ∈ networks_src, (p.1, q.1) ∈ mainPairs networks_src asns_src) ∧
    (∀ p ∈ networks_src, ∀ q ∈ asns_src, (p.1, q.1) ∈ mainPairs networks_src asns_src) := by
  refine ⟨by decide, by decide, by decide, by decide, by decide, by decide⟩

/-- C9 witness: AT&T (7018) is queried against itself. -/
theorem far_set_union_c9_witness :
    ("7018", "AT&T") ∈ networks_src ∧ ("7018", "7018") ∈ mainPairs networks_src asns_src :=
  ⟨by decide, far_set_union_c9.2.2.2.1 ("7018", "AT&T") (by decide)⟩

end CF
